import Mathlib

/-!
Verification development for the categorization cache & validator of
`categorize_books.py` (the book-categorization script of this repository).

Modelling conventions:
* An input book record (`books.json` entry) always carries `author` and
  `title` (structure `SentBook`).  For the hashing layer, where the
  in-memory key order of a JSON object matters, a record is modelled as an
  ordered association list `List (String × String)`.
* The oracle's parsed reply (`response_data` in the source) is modelled by
  `ResponseData`: either not a JSON object with a "books" key, or an object
  whose "books" value is not an array, or an array of reply books
  (`RespBook`, whose fields are optional, mirroring `dict.get`).
* `get_books_hash` in the source is
  `sha256(json.dumps(books, sort_keys=True, ensure_ascii=False)).hexdigest()`.
  SHA-256 is a fixed deterministic function of the serialized string, so
  every digest-equality property factors through equality of the canonical
  serialization; the model therefore returns the canonical serialization
  itself as the digest (an injective stand-in for the hex digest).
* The external API call of `categorize_year_books` (lines 195-266) is
  modelled by an explicit `OracleOutcome` argument: a transport-level
  exception, a reply that fails JSON parsing, or a parsed reply.  The
  result of the function is the returned `CatResult`, the cache after the
  call, and the number of oracle calls made (0 or 1).
* The cache (`Dict[str, {books_hash, response}]` in the source) is an
  association list with Python-dict lookup/assignment semantics; the model
  corresponds to `main`'s invocation where `cache is not None`.
-/

/-- An input book record sent to the oracle: `{"author": ..., "title": ...}`. -/
structure SentBook where
  author : String
  title : String
deriving DecidableEq, Repr

/-- An element of the oracle reply's `books` array.  Fields are optional,
mirroring the source's `book.get("title")` / `book.get("category")` accesses
on a parsed JSON object. -/
structure RespBook where
  author : Option String := none
  title : Option String := none
  category : Option String := none
deriving DecidableEq, Repr

/-- The parsed oracle reply (`response_data`), classified by the shape checks
of `validate_response` (lines 38-44 of the source). -/
inductive ResponseData where
  | notObject
  | booksNotList
  | withBooks (books : List RespBook)
deriving DecidableEq, Repr

/-- Allowed categories (lines 20-28 of the source).  The source uses a Python
set; only membership is ever consulted. -/
def ALLOWED_CATEGORIES : List String :=
  ["non-fiction", "sci-fi", "fantasy", "comic books", "tech books",
   "self-development books", "history"]

/-- Python's `str.lower()` on one character (ASCII case mapping, which covers
every string this program compares; written as a structural computation so
the kernel can evaluate it). -/
def pyLowerChar (c : Char) : Char :=
  if 'A' ≤ c ∧ c ≤ 'Z' then Char.ofNat (c.toNat + 32) else c

/-- Python's `str.lower()`. -/
def pyLower (s : String) : String :=
  String.mk (s.data.map pyLowerChar)

/-- Python's `str.strip()`: remove leading and trailing whitespace. -/
def pyStrip (s : String) : String :=
  String.mk (((s.data.dropWhile Char.isWhitespace).reverse.dropWhile
    Char.isWhitespace).reverse)

/-- Lower-cased titles of the sent books, line 47:
`sent_titles = {book["title"].lower() for book in books_sent}`.
The Python set is modelled as a deduplicated list. -/
def sent_titles (books_sent : List SentBook) : List String :=
  (books_sent.map (fun b => pyLower b.title)).dedup

/-- Lower-cased titles of the reply books, line 48:
`received_titles = {book.get("title", "").lower() for book in categorized_books}`. -/
def received_titles (categorized_books : List RespBook) : List String :=
  categorized_books.map (fun b => pyLower (b.title.getD ""))

/-- Line 50: `missing_books = sent_titles - received_titles` (set difference). -/
def missing_books (books_sent : List SentBook) (categorized_books : List RespBook) :
    List String :=
  (sent_titles books_sent).filter
    (fun t => decide (t ∉ received_titles categorized_books))

/-- Lines 56-60: collect original `category` values whose lower-cased,
whitespace-stripped form is non-empty and not an allowed category.
The Python set only has its emptiness and its formatting consulted. -/
def invalid_categories (categorized_books : List RespBook) : List String :=
  categorized_books.filterMap (fun book =>
    if pyStrip (pyLower (book.category.getD "")) ≠ "" ∧
       pyStrip (pyLower (book.category.getD "")) ∉ ALLOWED_CATEGORIES then
      some (book.category.getD "")
    else none)

/-- Lines 65-70: per-book required-field check, returning the first error
message, with the `title` check before the `category` check on each book. -/
def check_required_fields : List RespBook → Option String
  | [] => none
  | book :: rest =>
    if book.title = none then
      some "Some books in response are missing \x27title\x27 field"
    else if book.category = none then
      some ("Book \x27" ++ book.title.getD "unknown" ++
        "\x27 is missing \x27category\x27 field")
    else check_required_fields rest

/-- `validate_response(books_sent, response_data)` (lines 30-72), returning
`(is_valid, error_message, warnings)`.  Message texts follow the source;
collection formatting inside messages is abstracted by `toString`. -/
def validate_response (books_sent : List SentBook) (response_data : ResponseData) :
    Bool × String × List String :=
  match response_data with
  | .notObject => (false, "Response must be a JSON object with a \x27books\x27 key", [])
  | .booksNotList => (false, "Response \x27books\x27 must be an array", [])
  | .withBooks categorized_books =>
    let warnings :=
      if missing_books books_sent categorized_books = [] then ([] : List String)
      else ["Missing books in response: " ++
        toString (missing_books books_sent categorized_books)]
    if invalid_categories categorized_books ≠ [] then
      (false, "Invalid categories found: " ++
        toString (invalid_categories categorized_books) ++
        ". Allowed: " ++ toString ALLOWED_CATEGORIES, warnings)
    else
      match check_required_fields categorized_books with
      | some error_msg => (false, error_msg, warnings)
      | none => (true, "", warnings)

/-- One hex digit, lower-case, as produced by Python's JSON encoder for
control-character escapes. -/
def hexDigit (n : Nat) : String :=
  ["0", "1", "2", "3", "4", "5", "6", "7", "8", "9",
   "a", "b", "c", "d", "e", "f"].getD n "0"

/-- JSON escaping of a single character, as performed by `json.dumps` with
`ensure_ascii=False` (backslash, quote, and control characters escaped;
everything else, unicode included, passed through literally). -/
def jsonEscapeChar (c : Char) : String :=
  if c = '\\' then "\\\\"
  else if c = '"' then "\\\""
  else if c = '\n' then "\\n"
  else if c = '\t' then "\\t"
  else if c = '\r' then "\\r"
  else if c = '\x08' then "\\b"
  else if c = '\x0c' then "\\f"
  else if c.toNat < 32 then
    "\\u00" ++ hexDigit (c.toNat / 16) ++ hexDigit (c.toNat % 16)
  else String.singleton c

/-- JSON serialization of a string value. -/
def jsonString (s : String) : String :=
  "\"" ++ String.join (s.data.map jsonEscapeChar) ++ "\""

/-- Code-point lexicographic comparison of character lists: Python's `≤` on
strings, used by `sorted` on dictionary keys. -/
def charListLE : List Char → List Char → Bool
  | [], _ => true
  | _ :: _, [] => false
  | a :: as, b :: bs =>
    if a.toNat < b.toNat then true
    else if b.toNat < a.toNat then false
    else charListLE as bs

/-- Key order used by `json.dumps(..., sort_keys=True)`: dictionary keys are
emitted in ascending string order (code-point lexicographic, as in Python). -/
def keyLE (a b : String × String) : Prop :=
  charListLE a.1.data b.1.data = true

instance : DecidableRel keyLE :=
  fun a b => inferInstanceAs (Decidable (charListLE a.1.data b.1.data = true))

/-- `json.dumps` of one book object with `sort_keys=True`: keys sorted,
`", "` and `": "` separators (the `json.dumps` defaults).  Python's sort is
modelled by insertion sort, which agrees with it on the distinct keys of a
dictionary. -/
def jsonDumpsBook (b : List (String × String)) : String :=
  "\x7b" ++ String.intercalate ", "
    ((b.insertionSort keyLE).map (fun kv => jsonString kv.1 ++ ": " ++ jsonString kv.2)) ++
  "\x7d"

/-- `get_books_hash(books)` (lines 74-80):
`sha256(json.dumps(books, sort_keys=True, ensure_ascii=False)).hexdigest()`.
SHA-256 of the canonical serialization is modelled by the canonical
serialization itself (see the module docstring): both are deterministic
functions of the serialized text, so digest equality coincides with
serialization equality. -/
def get_books_hash (books : List (List (String × String))) : String :=
  "[" ++ String.intercalate ", " (books.map jsonDumpsBook) ++ "]"

/-- The JSON-object form of an input book record, as handed to
`get_books_hash` inside `categorize_year_books`. -/
def bookToObj (b : SentBook) : List (String × String) :=
  [("author", b.author), ("title", b.title)]

/-- A cache entry: `{'books_hash': str, 'response': dict}` (line 85). -/
structure CacheEntry where
  books_hash : String
  response : ResponseData
deriving DecidableEq, Repr

/-- The response cache `{year: CacheEntry}`, modelled as an association list
with Python-dict semantics (unique keys; assignment replaces in place). -/
abbrev Cache := List (String × CacheEntry)

/-- Python-dict lookup: `cache[year]` / `year in cache`. -/
def cacheFind : Cache → String → Option CacheEntry
  | [], _ => none
  | (k, v) :: rest, year => if k = year then some v else cacheFind rest year

/-- Python-dict assignment `cache[year] = entry`: replace the entry in place
if the key is present, otherwise append. -/
def cacheInsert : Cache → String → CacheEntry → Cache
  | [], year, entry => [(year, entry)]
  | (k, v) :: rest, year, entry =>
    if k = year then (year, entry) :: rest else (k, v) :: cacheInsert rest year entry

/-- The result of `categorize_year_books` for one year: on success the
parsed reply itself is returned; on failure `{"error": msg, "books": []}`. -/
inductive CatResult where
  | ok (response_data : ResponseData)
  | err (error_msg : String)
deriving DecidableEq, Repr

/-- `result.get("books", [])` as used by downstream consumers: the reply's
books on success, the empty list on an error result. -/
def CatResult.books : CatResult → List RespBook
  | .ok (.withBooks bs) => bs
  | .ok _ => []
  | .err _ => []

/-- Outcome of the external API call attempt (the `try` block,
lines 195-266): a transport-level exception, a reply whose text fails JSON
parsing, or a parsed reply. -/
inductive OracleOutcome where
  | apiError (msg : String)
  | parseError (msg : String)
  | reply (response_data : ResponseData)
deriving DecidableEq, Repr

/-- The oracle-call path of `categorize_year_books` (lines 195-266): perform
the API call, parse, validate, cache on success; the third component counts
oracle calls (always 1 on this path). -/
def oracle_step (year : String) (books : List SentBook) (books_hash : String)
    (cache : Cache) (oracle : OracleOutcome) : CatResult × Cache × Nat :=
  match oracle with
  | .apiError e => (.err ("API error: " ++ e), cache, 1)
  | .parseError e => (.err ("Failed to parse JSON response: " ++ e), cache, 1)
  | .reply response_data =>
    match validate_response books response_data with
    | (is_valid, error_msg, _warnings) =>
      if is_valid = false then (.err error_msg, cache, 1)
      else (.ok response_data,
        cacheInsert cache year ⟨books_hash, response_data⟩, 1)

/-- `categorize_year_books(client, year, books, log_file, cache, cache_file)`
(lines 140-266): cache lookup first (lines 145-158), then the oracle path.
Returns (result, cache after the call, number of oracle calls). -/
def categorize_year_books (year : String) (books : List SentBook) (cache : Cache)
    (oracle : OracleOutcome) : CatResult × Cache × Nat :=
  let books_hash := get_books_hash (books.map bookToObj)
  match cacheFind cache year with
  | some cached_entry =>
    if cached_entry.books_hash = books_hash then
      (.ok cached_entry.response, cache, 0)
    else oracle_step year books books_hash cache oracle
  | none => oracle_step year books books_hash cache oracle

/-- The cache-hit condition of lines 147-149: an entry exists for the year
and its stored hash equals the current input's hash. -/
def cache_hit (cache : Cache) (year : String) (books : List SentBook) : Bool :=
  match cacheFind cache year with
  | some cached_entry =>
    decide (cached_entry.books_hash = get_books_hash (books.map bookToObj))
  | none => false

/-- The per-year loop of `main` (lines 309-314): process each year in turn,
threading the cache, collecting one result per year. -/
def categorize_all (oracles : String → OracleOutcome) :
    List (String × List SentBook) → Cache → List (String × CatResult) × Cache
  | [], cache => ([], cache)
  | (year, books) :: rest, cache =>
    let step := categorize_year_books year books cache (oracles year)
    let restRes := categorize_all oracles rest step.2.1
    ((year, step.1) :: restRes.1, restRes.2)

/-! ### Basic lemmas about the cache and the control flow -/

theorem cacheFind_cacheInsert_self (c : Cache) (y : String) (e : CacheEntry) :
    cacheFind (cacheInsert c y e) y = some e := by
  induction c with
  | nil => simp [cacheInsert, cacheFind]
  | cons kv rest ih =>
    by_cases h : kv.1 = y
    · simp [cacheInsert, h, cacheFind]
    · simp [cacheInsert, h, cacheFind, ih]

theorem cacheFind_cacheInsert_ne (c : Cache) (y y2 : String) (e : CacheEntry)
    (h : y2 ≠ y) : cacheFind (cacheInsert c y e) y2 = cacheFind c y2 := by
  induction c with
  | nil => simp [cacheInsert, cacheFind, Ne.symm h]
  | cons kv rest ih =>
    simp only [cacheInsert]
    by_cases hk : kv.1 = y
    · simp [hk, cacheFind, Ne.symm h]
    · simp [hk, cacheFind, ih]

theorem categorize_of_not_hit (year : String) (books : List SentBook) (cache : Cache)
    (oracle : OracleOutcome) (h : cache_hit cache year books = false) :
    categorize_year_books year books cache oracle =
      oracle_step year books (get_books_hash (books.map bookToObj)) cache oracle := by
  unfold cache_hit at h
  unfold categorize_year_books
  cases hf : cacheFind cache year with
  | none => simp
  | some e =>
    rw [hf] at h
    simp only [decide_eq_false_iff_not] at h
    simp [h]

theorem categorize_of_hit (year : String) (books : List SentBook) (cache : Cache)
    (oracle : OracleOutcome) (e : CacheEntry) (hf : cacheFind cache year = some e)
    (hh : e.books_hash = get_books_hash (books.map bookToObj)) :
    categorize_year_books year books cache oracle = (.ok e.response, cache, 0) := by
  unfold categorize_year_books
  rw [hf]
  simp [hh]

theorem oracle_step_of_valid (year : String) (books : List SentBook)
    (books_hash : String) (cache : Cache) (d : ResponseData)
    (h : (validate_response books d).1 = true) :
    oracle_step year books books_hash cache (.reply d) =
      (.ok d, cacheInsert cache year ⟨books_hash, d⟩, 1) := by
  unfold oracle_step
  simp [h]

theorem oracle_step_of_invalid (year : String) (books : List SentBook)
    (books_hash : String) (cache : Cache) (d : ResponseData)
    (h : (validate_response books d).1 = false) :
    oracle_step year books books_hash cache (.reply d) =
      (.err (validate_response books d).2.1, cache, 1) := by
  unfold oracle_step
  simp [h]

/-! ### The key order is a total preorder, antisymmetric on the keys -/

theorem charListLE_total (x : List Char) :
    ∀ y, charListLE x y = true ∨ charListLE y x = true := by
  induction x with
  | nil => intro y; left; simp [charListLE]
  | cons a as ih =>
    intro y
    cases y with
    | nil => right; simp [charListLE]
    | cons b bs =>
      simp only [charListLE]
      rcases Nat.lt_trichotomy a.toNat b.toNat with h | h | h
      · left; simp [h]
      · have h2 : ¬ a.toNat < b.toNat := by omega
        have h3 : ¬ b.toNat < a.toNat := by omega
        rcases ih bs with h4 | h4
        · left; simp [h2, h3, h4]
        · right; simp [h2, h3, h4]
      · right; simp [h]

theorem charListLE_trans (x : List Char) :
    ∀ y z, charListLE x y = true → charListLE y z = true → charListLE x z = true := by
  induction x with
  | nil => intro y z _ _; simp [charListLE]
  | cons a as ih =>
    intro y z hxy hyz
    cases y with
    | nil => simp [charListLE] at hxy
    | cons b bs =>
      cases z with
      | nil => simp [charListLE] at hyz
      | cons c cs =>
        simp only [charListLE] at hxy hyz ⊢
        rcases Nat.lt_trichotomy a.toNat b.toNat with h1 | h1 | h1
        · rcases Nat.lt_trichotomy b.toNat c.toNat with h2 | h2 | h2
          · have h3 : a.toNat < c.toNat := by omega
            simp [h3]
          · have h3 : a.toNat < c.toNat := by omega
            simp [h3]
          · simp [Nat.lt_asymm h2, h2] at hyz
        · rcases Nat.lt_trichotomy b.toNat c.toNat with h2 | h2 | h2
          · have h3 : a.toNat < c.toNat := by omega
            simp [h3]
          · have h3 : ¬ a.toNat < c.toNat := by omega
            have h4 : ¬ c.toNat < a.toNat := by omega
            have h5 : ¬ a.toNat < b.toNat := by omega
            have h6 : ¬ b.toNat < a.toNat := by omega
            have h7 : ¬ b.toNat < c.toNat := by omega
            have h8 : ¬ c.toNat < b.toNat := by omega
            rw [if_neg h5, if_neg h6] at hxy
            rw [if_neg h7, if_neg h8] at hyz
            rw [if_neg h3, if_neg h4]
            exact ih bs cs hxy hyz
          · simp [Nat.lt_asymm h2, h2] at hyz
        · simp [Nat.lt_asymm h1, h1] at hxy

theorem charListLE_antisymm (x : List Char) :
    ∀ y, charListLE x y = true → charListLE y x = true → x = y := by
  induction x with
  | nil =>
    intro y _ hyx
    cases y with
    | nil => rfl
    | cons b bs => simp [charListLE] at hyx
  | cons a as ih =>
    intro y hxy hyx
    cases y with
    | nil => simp [charListLE] at hxy
    | cons b bs =>
      simp only [charListLE] at hxy hyx
      rcases Nat.lt_trichotomy a.toNat b.toNat with h1 | h1 | h1
      · simp [Nat.lt_asymm h1, h1] at hyx
      · have h5 : ¬ a.toNat < b.toNat := by omega
        have h6 : ¬ b.toNat < a.toNat := by omega
        rw [if_neg h5, if_neg h6] at hxy
        rw [if_neg h6, if_neg h5] at hyx
        have hab : a = b := Char.eq_of_val_eq (UInt32.toNat.inj h1)
        rw [hab, ih bs hxy hyx]
      · simp [Nat.lt_asymm h1, h1] at hxy

instance : IsTotal (String × String) keyLE :=
  ⟨fun a b => charListLE_total a.1.data b.1.data⟩

instance : IsTrans (String × String) keyLE :=
  ⟨fun a b c => charListLE_trans a.1.data b.1.data c.1.data⟩

/-- Strict version of the key order, used to show that a sorted association
list with distinct keys is uniquely determined. -/
def keyLT (a b : String × String) : Prop :=
  keyLE a b ∧ a.1 ≠ b.1

instance : IsAntisymm (String × String) keyLT :=
  ⟨fun a b hab hba => by
    have hdata : a.1.data = b.1.data := charListLE_antisymm _ _ hab.1 hba.1
    have heq : a.1 = b.1 := by
      cases a1 : a.1
      cases b1 : b.1
      rw [a1, b1] at hdata
      exact congrArg String.mk hdata
    exact absurd heq hab.2⟩

/-- Two permuted association lists with distinct keys have the same
key-sorted form: the sorted order of a dictionary is determined by its
key-value pairs alone. -/
theorem insertionSort_eq_of_perm (l1 l2 : List (String × String))
    (hp : l1.Perm l2) (hnd : (l1.map Prod.fst).Nodup) :
    List.insertionSort keyLE l1 = List.insertionSort keyLE l2 := by
  have p1 : (List.insertionSort keyLE l1).Perm l1 := List.perm_insertionSort keyLE l1
  have p2 : (List.insertionSort keyLE l2).Perm l2 := List.perm_insertionSort keyLE l2
  have hp2 : (List.insertionSort keyLE l1).Perm (List.insertionSort keyLE l2) :=
    p1.trans (hp.trans p2.symm)
  have s1 : (List.insertionSort keyLE l1).Pairwise keyLE :=
    List.sorted_insertionSort keyLE l1
  have s2 : (List.insertionSort keyLE l2).Pairwise keyLE :=
    List.sorted_insertionSort keyLE l2
  have hnd2 : (l2.map Prod.fst).Nodup := ((hp.map Prod.fst).nodup_iff).mp hnd
  have nd1 : ((List.insertionSort keyLE l1).map Prod.fst).Nodup :=
    ((p1.map Prod.fst).nodup_iff).mpr hnd
  have nd2 : ((List.insertionSort keyLE l2).map Prod.fst).Nodup :=
    ((p2.map Prod.fst).nodup_iff).mpr hnd2
  have ne1 : (List.insertionSort keyLE l1).Pairwise (fun a b => a.1 ≠ b.1) :=
    (List.pairwise_map).mp nd1
  have ne2 : (List.insertionSort keyLE l2).Pairwise (fun a b => a.1 ≠ b.1) :=
    (List.pairwise_map).mp nd2
  have st1 : (List.insertionSort keyLE l1).Pairwise keyLT := s1.and ne1
  have st2 : (List.insertionSort keyLE l2).Pairwise keyLT := s2.and ne2
  exact List.eq_of_perm_of_sorted hp2 st1 st2

/-- The canonical (key-sorted) serialization of one record is invariant
under reordering of its key-value pairs. -/
theorem jsonDumpsBook_eq_of_perm (b1 b2 : List (String × String))
    (hp : b1.Perm b2) (hnd : (b1.map Prod.fst).Nodup) :
    jsonDumpsBook b1 = jsonDumpsBook b2 := by
  unfold jsonDumpsBook
  rw [insertionSort_eq_of_perm b1 b2 hp hnd]

/-! ### Lemmas about validation -/

theorem check_required_fields_eq_none (bs : List RespBook)
    (h : ∀ b ∈ bs, b.title ≠ none ∧ b.category ≠ none) :
    check_required_fields bs = none := by
  induction bs with
  | nil => rfl
  | cons b rest ih =>
    obtain ⟨ht, hc⟩ := h b (List.mem_cons_self _ _)
    simp only [check_required_fields, if_neg ht, if_neg hc]
    exact ih (fun x hx => h x (List.mem_cons_of_mem _ hx))

theorem invalid_categories_eq_nil (bs : List RespBook)
    (h : ∀ b ∈ bs, pyStrip (pyLower (b.category.getD "")) = "" ∨
         pyStrip (pyLower (b.category.getD "")) ∈ ALLOWED_CATEGORIES) :
    invalid_categories bs = [] := by
  unfold invalid_categories
  rw [List.filterMap_eq_nil_iff]
  intro b hb
  rcases h b hb with h1 | h1
  · exact if_neg (fun hcond => hcond.1 h1)
  · exact if_neg (fun hcond => hcond.2 h1)

theorem missing_books_eq_nil (books_sent : List SentBook) (bs : List RespBook)
    (h : ∀ sb ∈ books_sent, pyLower sb.title ∈ received_titles bs) :
    missing_books books_sent bs = [] := by
  unfold missing_books
  rw [List.filter_eq_nil_iff]
  intro t ht
  have : t ∈ books_sent.map (fun b => pyLower b.title) := List.mem_dedup.mp ht
  obtain ⟨sb, hsb, rfl⟩ := List.mem_map.mp this
  simp only [decide_eq_true_iff, Decidable.not_not]
  exact h sb hsb

theorem validate_response_valid (books_sent : List SentBook) (bs : List RespBook)
    (hcats : invalid_categories bs = [])
    (hfields : check_required_fields bs = none) :
    validate_response books_sent (.withBooks bs) =
      (true, "",
        if missing_books books_sent bs = [] then ([] : List String)
        else ["Missing books in response: " ++ toString (missing_books books_sent bs)]) := by
  simp [validate_response, hcats, hfields]

/-! ### Claim theorems -/

theorem map_jsonDumpsBook_eq (L1 L2 : List (List (String × String)))
    (hperm : List.Forall₂ (fun b1 b2 => b1.Perm b2) L1 L2) :
    (∀ b ∈ L1, (b.map Prod.fst).Nodup) →
    L1.map jsonDumpsBook = L2.map jsonDumpsBook := by
  induction hperm with
  | nil => intro _; rfl
  | cons hab htail ih =>
    intro hnd
    simp only [List.map_cons]
    rw [jsonDumpsBook_eq_of_perm _ _ hab (hnd _ (List.mem_cons_self _ _)),
      ih (fun b hb => hnd b (List.mem_cons_of_mem _ hb))]

/-- C5: `hash` is a deterministic function of the content of the book list:
`hash(L) = hash(L)`, and two lists whose records contain the same key-value
pairs, differing only in the in-memory order of keys inside each record,
have equal digests, because the serialization is canonical (key-sorted). -/
theorem hash_deterministic_and_canonical (L1 L2 : List (List (String × String)))
    (hnd : ∀ b ∈ L1, (b.map Prod.fst).Nodup)
    (hperm : List.Forall₂ (fun b1 b2 => b1.Perm b2) L1 L2) :
    get_books_hash L1 = get_books_hash L1 ∧ get_books_hash L1 = get_books_hash L2 := by
  refine ⟨rfl, ?_⟩
  unfold get_books_hash
  rw [map_jsonDumpsBook_eq L1 L2 hperm hnd]

/-- Witness for C5 at a concrete input: the record with keys in the order
`title, author` hashes identically to the record with keys in the order
`author, title`. -/
theorem hash_deterministic_and_canonical_witness :
    (∀ b ∈ [[("title", "T1"), ("author", "A")]], (b.map Prod.fst).Nodup) ∧
    List.Forall₂ (fun b1 b2 => b1.Perm b2)
      [[("title", "T1"), ("author", "A")]] [[("author", "A"), ("title", "T1")]] ∧
    get_books_hash [[("title", "T1"), ("author", "A")]] =
      get_books_hash [[("title", "T1"), ("author", "A")]] ∧
    get_books_hash [[("title", "T1"), ("author", "A")]] =
      get_books_hash [[("author", "A"), ("title", "T1")]] :=
  ⟨by decide, by decide,
    hash_deterministic_and_canonical _ _ (by decide) (by decide)⟩

/-- C9: on a cache hit (stored `books_hash` equals the current input's hash),
`categorize` returns the stored response verbatim without re-running
validation: even a cached response that fails the current validation
contract is returned as the accepted result, with no oracle call and no
cache change. -/
theorem cache_hit_returns_stored_without_validation (year : String)
    (books : List SentBook) (cache : Cache) (e : CacheEntry)
    (oracle : OracleOutcome)
    (hfound : cacheFind cache year = some e)
    (hhash : e.books_hash = get_books_hash (books.map bookToObj))
    (_hbad : (validate_response books e.response).1 = false) :
    categorize_year_books year books cache oracle = (.ok e.response, cache, 0) :=
  categorize_of_hit year books cache oracle e hfound hhash

/-- Witness for C9: a cached reply with category "biography" fails the
current validation contract, yet a hit returns it as the accepted result. -/
theorem cache_hit_returns_stored_without_validation_witness :
    cacheFind [("2020",
        ⟨get_books_hash [bookToObj ⟨"A", "T1"⟩],
         .withBooks [⟨some "A", some "T1", some "biography"⟩]⟩)] "2020" =
      some ⟨get_books_hash [bookToObj ⟨"A", "T1"⟩],
        .withBooks [⟨some "A", some "T1", some "biography"⟩]⟩ ∧
    (validate_response [⟨"A", "T1"⟩]
      (.withBooks [⟨some "A", some "T1", some "biography"⟩])).1 = false ∧
    categorize_year_books "2020" [⟨"A", "T1"⟩]
      [("2020",
        ⟨get_books_hash [bookToObj ⟨"A", "T1"⟩],
         .withBooks [⟨some "A", some "T1", some "biography"⟩]⟩)]
      (.reply .notObject) =
      (.ok (.withBooks [⟨some "A", some "T1", some "biography"⟩]),
       [("2020",
        ⟨get_books_hash [bookToObj ⟨"A", "T1"⟩],
         .withBooks [⟨some "A", some "T1", some "biography"⟩]⟩)], 0) :=
  ⟨by decide, by decide,
    cache_hit_returns_stored_without_validation "2020" [⟨"A", "T1"⟩]
      [("2020",
        ⟨get_books_hash [bookToObj ⟨"A", "T1"⟩],
         .withBooks [⟨some "A", some "T1", some "biography"⟩]⟩)]
      ⟨get_books_hash [bookToObj ⟨"A", "T1"⟩],
       .withBooks [⟨some "A", some "T1", some "biography"⟩]⟩
      (.reply .notObject) (by decide) (by decide) (by decide)⟩

/-- C2: whenever the oracle reply fails validation or cannot be parsed as
structured data, `categorize` returns an error result whose `books` list is
empty and performs no cache write: the cache, including any pre-existing
entry for the year, is exactly what it was before the call. -/
theorem validation_failure_returns_error_and_no_cache_write (year : String)
    (books : List SentBook) (cache : Cache) (oracle : OracleOutcome)
    (hmiss : cache_hit cache year books = false)
    (hfail : (∃ m, oracle = .parseError m) ∨
      (∃ d, oracle = .reply d ∧ (validate_response books d).1 = false)) :
    (∃ msg, (categorize_year_books year books cache oracle).1 = .err msg) ∧
    (categorize_year_books year books cache oracle).1.books = [] ∧
    (categorize_year_books year books cache oracle).2.1 = cache := by
  rw [categorize_of_not_hit year books cache oracle hmiss]
  rcases hfail with ⟨m, rfl⟩ | ⟨d, rfl, hinv⟩
  · exact ⟨⟨_, rfl⟩, rfl, rfl⟩
  · rw [oracle_step_of_invalid year books _ cache d hinv]
    exact ⟨⟨_, rfl⟩, rfl, rfl⟩

/-- Witness for C2: a pre-existing stale entry for "2020" survives a
validation failure unchanged. -/
theorem validation_failure_no_cache_write_witness :
    cache_hit [("2020", ⟨"stale", .withBooks []⟩)] "2020" [⟨"A", "T1"⟩] = false ∧
    (validate_response [⟨"A", "T1"⟩]
      (.withBooks [⟨some "A", some "T1", some "biography"⟩])).1 = false ∧
    (∃ msg, (categorize_year_books "2020" [⟨"A", "T1"⟩]
      [("2020", ⟨"stale", .withBooks []⟩)]
      (.reply (.withBooks [⟨some "A", some "T1", some "biography"⟩]))).1 = .err msg) ∧
    (categorize_year_books "2020" [⟨"A", "T1"⟩]
      [("2020", ⟨"stale", .withBooks []⟩)]
      (.reply (.withBooks [⟨some "A", some "T1", some "biography"⟩]))).1.books = [] ∧
    (categorize_year_books "2020" [⟨"A", "T1"⟩]
      [("2020", ⟨"stale", .withBooks []⟩)]
      (.reply (.withBooks [⟨some "A", some "T1", some "biography"⟩]))).2.1 =
      [("2020", ⟨"stale", .withBooks []⟩)] :=
  ⟨by decide, by decide,
    validation_failure_returns_error_and_no_cache_write "2020" [⟨"A", "T1"⟩]
      [("2020", ⟨"stale", .withBooks []⟩)]
      (.reply (.withBooks [⟨some "A", some "T1", some "biography"⟩]))
      (by decide)
      (Or.inr ⟨_, rfl, by decide⟩)⟩

/-- C4: a successful `categorize(y1, L2)` after the year's book list changed
writes the new entry `{books_hash: hash(L2), response}` under key `y1` only:
the cache entry of every other year `y2` is unchanged by the call. -/
theorem successful_recategorization_updates_only_that_year (y1 y2 : String)
    (books : List SentBook) (cache : Cache) (d : ResponseData) (e : CacheEntry)
    (hne : y1 ≠ y2)
    (hold : cacheFind cache y1 = some e)
    (hchanged : e.books_hash ≠ get_books_hash (books.map bookToObj))
    (hvalid : (validate_response books d).1 = true) :
    (categorize_year_books y1 books cache (.reply d)).1 = .ok d ∧
    (categorize_year_books y1 books cache (.reply d)).2.1 =
      cacheInsert cache y1 ⟨get_books_hash (books.map bookToObj), d⟩ ∧
    cacheFind (categorize_year_books y1 books cache (.reply d)).2.1 y1 =
      some ⟨get_books_hash (books.map bookToObj), d⟩ ∧
    cacheFind (categorize_year_books y1 books cache (.reply d)).2.1 y2 =
      cacheFind cache y2 := by
  have hmiss : cache_hit cache y1 books = false := by
    unfold cache_hit
    rw [hold]
    simp [hchanged]
  rw [categorize_of_not_hit y1 books cache _ hmiss,
    oracle_step_of_valid y1 books _ cache d hvalid]
  exact ⟨rfl, rfl, cacheFind_cacheInsert_self cache y1 _,
    cacheFind_cacheInsert_ne cache y1 y2 _ (Ne.symm hne)⟩

/-- Witness for C4: year "2020" holds a stale hash, year "2019" holds an
unrelated entry; recategorizing "2020" overwrites "2020" and leaves "2019"
untouched. -/
theorem successful_recategorization_frame_witness :
    ("2020" : String) ≠ "2019" ∧
    cacheFind [("2020", ⟨"stale", .withBooks []⟩),
               ("2019", ⟨"h2019", .withBooks []⟩)] "2020" =
      some ⟨"stale", .withBooks []⟩ ∧
    ("stale" : String) ≠ get_books_hash ([⟨"A", "T1"⟩].map bookToObj) ∧
    (validate_response [⟨"A", "T1"⟩]
      (.withBooks [⟨some "A", some "T1", some "sci-fi"⟩])).1 = true ∧
    cacheFind (categorize_year_books "2020" [⟨"A", "T1"⟩]
      [("2020", ⟨"stale", .withBooks []⟩), ("2019", ⟨"h2019", .withBooks []⟩)]
      (.reply (.withBooks [⟨some "A", some "T1", some "sci-fi"⟩]))).2.1 "2020" =
      some ⟨get_books_hash ([⟨"A", "T1"⟩].map bookToObj),
        .withBooks [⟨some "A", some "T1", some "sci-fi"⟩]⟩ ∧
    cacheFind (categorize_year_books "2020" [⟨"A", "T1"⟩]
      [("2020", ⟨"stale", .withBooks []⟩), ("2019", ⟨"h2019", .withBooks []⟩)]
      (.reply (.withBooks [⟨some "A", some "T1", some "sci-fi"⟩]))).2.1 "2019" =
      some ⟨"h2019", .withBooks []⟩ :=
  ⟨by decide, by decide, by decide, by decide,
    (successful_recategorization_updates_only_that_year "2020" "2019"
      [⟨"A", "T1"⟩]
      [("2020", ⟨"stale", .withBooks []⟩), ("2019", ⟨"h2019", .withBooks []⟩)]
      (.withBooks [⟨some "A", some "T1", some "sci-fi"⟩])
      ⟨"stale", .withBooks []⟩
      (by decide) (by decide) (by decide) (by decide)).2.2.1,
    by
      rw [(successful_recategorization_updates_only_that_year "2020" "2019"
        [⟨"A", "T1"⟩]
        [("2020", ⟨"stale", .withBooks []⟩), ("2019", ⟨"h2019", .withBooks []⟩)]
        (.withBooks [⟨some "A", some "T1", some "sci-fi"⟩])
        ⟨"stale", .withBooks []⟩
        (by decide) (by decide) (by decide) (by decide)).2.2.2]
      decide⟩

/-- C1 counterexample: the claim "two successive `categorize(year, L)` calls
with no change to L issue exactly one oracle call" fails when the first
call's reply does not validate: nothing is cached, so the second call
contacts the oracle again (two calls in total, and the second call is not a
cache hit). -/
theorem idempotence_counterexample :
    (categorize_year_books "2020" [⟨"A", "T1"⟩] []
        (.reply (.withBooks [⟨some "A", some "T1", some "biography"⟩]))).2.2 +
      (categorize_year_books "2020" [⟨"A", "T1"⟩]
        (categorize_year_books "2020" [⟨"A", "T1"⟩] []
          (.reply (.withBooks [⟨some "A", some "T1", some "biography"⟩]))).2.1
        (.reply (.withBooks [⟨some "A", some "T1", some "biography"⟩]))).2.2 ≠ 1 ∧
    cacheFind (categorize_year_books "2020" [⟨"A", "T1"⟩] []
        (.reply (.withBooks [⟨some "A", some "T1", some "biography"⟩]))).2.1
      "2020" = none := by
  constructor
  · decide
  · decide

/-- C1 (amended): if `categorize(year, L)` starts from a cache without a
matching entry and the oracle reply passes validation, then calling it twice
in succession with no change to L issues exactly one oracle call: the second
call finds a cache entry for the year whose stored hash equals `hash(L)` and
returns the stored result without contacting the oracle. -/
theorem idempotence_after_successful_call (year : String) (books : List SentBook)
    (cache : Cache) (d : ResponseData)
    (hmiss : cache_hit cache year books = false)
    (hvalid : (validate_response books d).1 = true) :
    (categorize_year_books year books cache (.reply d)).2.2 +
      (categorize_year_books year books
        (categorize_year_books year books cache (.reply d)).2.1 (.reply d)).2.2 = 1 ∧
    cacheFind (categorize_year_books year books cache (.reply d)).2.1 year =
      some ⟨get_books_hash (books.map bookToObj), d⟩ ∧
    categorize_year_books year books
      (categorize_year_books year books cache (.reply d)).2.1 (.reply d) =
      (.ok d, (categorize_year_books year books cache (.reply d)).2.1, 0) := by
  rw [categorize_of_not_hit year books cache _ hmiss,
    oracle_step_of_valid year books _ cache d hvalid]
  have hf : cacheFind
      (cacheInsert cache year ⟨get_books_hash (books.map bookToObj), d⟩) year =
      some ⟨get_books_hash (books.map bookToObj), d⟩ :=
    cacheFind_cacheInsert_self cache year _
  refine ⟨?_, hf, ?_⟩
  · rw [categorize_of_hit year books _ (.reply d) _ hf rfl]
    rfl
  · rw [categorize_of_hit year books _ (.reply d) _ hf rfl]


/-- Witness for the amended C1 at a concrete input. -/
theorem idempotence_after_successful_call_witness :
    cache_hit [] "2020" [⟨"A", "T1"⟩] = false ∧
    (validate_response [⟨"A", "T1"⟩]
      (.withBooks [⟨some "A", some "T1", some "sci-fi"⟩])).1 = true ∧
    (categorize_year_books "2020" [⟨"A", "T1"⟩] []
        (.reply (.withBooks [⟨some "A", some "T1", some "sci-fi"⟩]))).2.2 +
      (categorize_year_books "2020" [⟨"A", "T1"⟩]
        (categorize_year_books "2020" [⟨"A", "T1"⟩] []
          (.reply (.withBooks [⟨some "A", some "T1", some "sci-fi"⟩]))).2.1
        (.reply (.withBooks [⟨some "A", some "T1", some "sci-fi"⟩]))).2.2 = 1 :=
  ⟨by decide, by decide,
    (idempotence_after_successful_call "2020" [⟨"A", "T1"⟩] []
      (.withBooks [⟨some "A", some "T1", some "sci-fi"⟩])
      (by decide) (by decide)).1⟩

/-- C8: `categorize` is total and turns every oracle-call failure, every
unparsable reply, and every validation hard-failure into the value
`{error, books: []}` for that year, without touching the cache; and the
per-year driver loop produces a result for every year regardless of
failures, so a failure in one year cannot abort processing of subsequent
years. -/
theorem per_year_failures_are_local (year : String) (books : List SentBook)
    (cache : Cache) (oracle : OracleOutcome)
    (hmiss : cache_hit cache year books = false) :
    (∀ m, oracle = .apiError m →
      categorize_year_books year books cache oracle =
        (.err ("API error: " ++ m), cache, 1)) ∧
    (∀ m, oracle = .parseError m →
      categorize_year_books year books cache oracle =
        (.err ("Failed to parse JSON response: " ++ m), cache, 1)) ∧
    (∀ d, oracle = .reply d → (validate_response books d).1 = false →
      categorize_year_books year books cache oracle =
        (.err (validate_response books d).2.1, cache, 1)) ∧
    (∀ msg, (CatResult.err msg).books = []) ∧
    (∀ (oracles : String → OracleOutcome) (years : List (String × List SentBook))
        (cache0 : Cache),
      (categorize_all oracles years cache0).1.map Prod.fst = years.map Prod.fst) := by
  refine ⟨?_, ?_, ?_, fun msg => rfl, ?_⟩
  · rintro m rfl
    rw [categorize_of_not_hit year books cache _ hmiss]
    rfl
  · rintro m rfl
    rw [categorize_of_not_hit year books cache _ hmiss]
    rfl
  · rintro d rfl hinv
    rw [categorize_of_not_hit year books cache _ hmiss,
      oracle_step_of_invalid year books _ cache d hinv]
  · intro oracles years
    induction years with
    | nil => intro cache0; rfl
    | cons y rest ih =>
      intro cache0
      obtain ⟨yy, bb⟩ := y
      simp only [categorize_all, List.map_cons, List.cons.injEq]
      exact ⟨trivial, ih _⟩

/-- Witness for C8: a transport error on a fresh cache yields the error
result for that year, and a two-year run still produces a result for both
years when the first year fails. -/
theorem per_year_failures_are_local_witness :
    cache_hit [] "2020" [⟨"A", "T1"⟩] = false ∧
    categorize_year_books "2020" [⟨"A", "T1"⟩] [] (.apiError "timeout") =
      (.err ("API error: " ++ "timeout"), [], 1) ∧
    (categorize_all (fun _ => .apiError "timeout")
      [("2020", [⟨"A", "T1"⟩]), ("2021", [⟨"B", "T2"⟩])] []).1.map Prod.fst =
      ["2020", "2021"] :=
  ⟨by decide,
    (per_year_failures_are_local "2020" [⟨"A", "T1"⟩] [] (.apiError "timeout")
      (by decide)).1 "timeout" rfl,
    by
      rw [(per_year_failures_are_local "2020" [⟨"A", "T1"⟩] [] (.apiError "x")
        (by decide)).2.2.2.2 (fun _ => .apiError "timeout")
        [("2020", [⟨"A", "T1"⟩]), ("2021", [⟨"B", "T2"⟩])] []]
      decide⟩

/-- C3 counterexample: the claim "any present category value that, compared
case-insensitively, is not one of the seven allowed labels is a hard
failure" fails on a category with surrounding whitespace: `"  Sci-Fi "`
lower-cases to a string outside the allowed set, yet validation accepts the
reply, because the source also strips whitespace before the membership test. -/
theorem category_check_counterexample :
    (∃ b ∈ [(⟨some "A", some "T", some "  Sci-Fi "⟩ : RespBook)],
      ∃ c, b.category = some c ∧ pyLower c ∉ ALLOWED_CATEGORIES) ∧
    (validate_response [⟨"A", "T"⟩]
      (.withBooks [⟨some "A", some "T", some "  Sci-Fi "⟩])).1 = true := by
  constructor
  · exact ⟨_, List.mem_cons_self _ _, "  Sci-Fi ", rfl, by decide⟩
  · decide

/-- C3 (amended): validation is a hard failure for the whole year whenever
any element of the reply's books sequence has a present category value
whose lower-cased, whitespace-stripped form is non-empty and not one of the
seven allowed category labels; `validate_response` then returns invalid
regardless of how well-formed the other elements are. -/
theorem invalid_category_is_hard_failure (books_sent : List SentBook)
    (bs : List RespBook)
    (h : ∃ b ∈ bs, ∃ c, b.category = some c ∧
      pyStrip (pyLower c) ≠ "" ∧ pyStrip (pyLower c) ∉ ALLOWED_CATEGORIES) :
    (validate_response books_sent (.withBooks bs)).1 = false := by
  obtain ⟨b, hb, c, hc, hcne, hcnot⟩ := h
  have hmem : (b.category.getD "") ∈ invalid_categories bs := by
    unfold invalid_categories
    refine List.mem_filterMap.mpr ⟨b, hb, ?_⟩
    simp only [hc, Option.getD_some]
    rw [if_pos ⟨hcne, hcnot⟩]
  have hne : invalid_categories bs ≠ [] := List.ne_nil_of_mem hmem
  simp [validate_response, hne]

/-- Witness for the amended C3: a reply with category "biography" is
rejected even though every other field is well-formed. -/
theorem invalid_category_is_hard_failure_witness :
    (∃ b ∈ [(⟨some "A", some "T", some "biography"⟩ : RespBook)],
      ∃ c, b.category = some c ∧
        pyStrip (pyLower c) ≠ "" ∧ pyStrip (pyLower c) ∉ ALLOWED_CATEGORIES) ∧
    (validate_response [⟨"A", "T"⟩]
      (.withBooks [⟨some "A", some "T", some "biography"⟩])).1 = false :=
  ⟨⟨_, List.mem_cons_self _ _, "biography", rfl, by decide, by decide⟩,
    invalid_category_is_hard_failure [⟨"A", "T"⟩] _
      ⟨_, List.mem_cons_self _ _, "biography", rfl, by decide, by decide⟩⟩

/-- C6: input books absent from the reply do not make validation fail: the
reply is still valid, the missing title is collected into the returned
warning list, and the accepted (and cached) result contains the reply's
books unchanged. -/
theorem missing_books_warn_but_accept (year : String) (books_sent : List SentBook)
    (cache : Cache) (bs : List RespBook) (sb : SentBook)
    (hcats : invalid_categories bs = [])
    (hfields : check_required_fields bs = none)
    (hsb : sb ∈ books_sent)
    (habsent : ∀ rb ∈ bs, pyLower (rb.title.getD "") ≠ pyLower sb.title)
    (hmiss : cache_hit cache year books_sent = false) :
    (validate_response books_sent (.withBooks bs)).1 = true ∧
    pyLower sb.title ∈ missing_books books_sent bs ∧
    (validate_response books_sent (.withBooks bs)).2.2 =
      ["Missing books in response: " ++ toString (missing_books books_sent bs)] ∧
    categorize_year_books year books_sent cache (.reply (.withBooks bs)) =
      (.ok (.withBooks bs),
        cacheInsert cache year
          ⟨get_books_hash (books_sent.map bookToObj), .withBooks bs⟩, 1) ∧
    (CatResult.ok (.withBooks bs)).books = bs := by
  have hmem : pyLower sb.title ∈ missing_books books_sent bs := by
    unfold missing_books
    refine List.mem_filter.mpr ⟨?_, ?_⟩
    · unfold sent_titles
      exact List.mem_dedup.mpr (List.mem_map.mpr ⟨sb, hsb, rfl⟩)
    · rw [decide_eq_true_iff]
      intro hcon
      unfold received_titles at hcon
      obtain ⟨rb, hrb, heq⟩ := List.mem_map.mp hcon
      exact habsent rb hrb heq
  have hnonempty : missing_books books_sent bs ≠ [] := List.ne_nil_of_mem hmem
  have hval := validate_response_valid books_sent bs hcats hfields
  have hvalid1 : (validate_response books_sent (.withBooks bs)).1 = true := by
    rw [hval]
  refine ⟨hvalid1, hmem, ?_, ?_, rfl⟩
  · rw [hval]
    simp [hnonempty]
  · rw [categorize_of_not_hit _ _ _ _ hmiss,
      oracle_step_of_valid _ _ _ _ _ hvalid1]

/-- Witness for C6: the input book ("Jane Doe", "Untitled Draft") is absent
from the reply; the year is still accepted with a warning and the reply's
single book is returned unchanged. -/
theorem missing_books_warn_but_accept_witness :
    invalid_categories [⟨some "A", some "T1", some "sci-fi"⟩] = [] ∧
    check_required_fields [⟨some "A", some "T1", some "sci-fi"⟩] = none ∧
    (⟨"Jane Doe", "Untitled Draft"⟩ : SentBook) ∈
      [(⟨"A", "T1"⟩ : SentBook), ⟨"Jane Doe", "Untitled Draft"⟩] ∧
    (∀ rb ∈ [(⟨some "A", some "T1", some "sci-fi"⟩ : RespBook)],
      pyLower (rb.title.getD "") ≠ pyLower "Untitled Draft") ∧
    (validate_response [⟨"A", "T1"⟩, ⟨"Jane Doe", "Untitled Draft"⟩]
      (.withBooks [⟨some "A", some "T1", some "sci-fi"⟩])).1 = true ∧
    pyLower "Untitled Draft" ∈
      missing_books [⟨"A", "T1"⟩, ⟨"Jane Doe", "Untitled Draft"⟩]
        [⟨some "A", some "T1", some "sci-fi"⟩] ∧
    (CatResult.ok (.withBooks [⟨some "A", some "T1", some "sci-fi"⟩])).books =
      [⟨some "A", some "T1", some "sci-fi"⟩] :=
  ⟨by decide, by decide, by decide, by decide,
    (missing_books_warn_but_accept "2020"
      [⟨"A", "T1"⟩, ⟨"Jane Doe", "Untitled Draft"⟩] []
      [⟨some "A", some "T1", some "sci-fi"⟩] ⟨"Jane Doe", "Untitled Draft"⟩
      (by decide) (by decide) (by decide) (by decide) (by decide)).1,
    (missing_books_warn_but_accept "2020"
      [⟨"A", "T1"⟩, ⟨"Jane Doe", "Untitled Draft"⟩] []
      [⟨some "A", some "T1", some "sci-fi"⟩] ⟨"Jane Doe", "Untitled Draft"⟩
      (by decide) (by decide) (by decide) (by decide) (by decide)).2.1,
    by decide⟩

/-- C7 counterexample: the claim that the presence check identifies a book
by the pair (lower-cased title, author) is false: with input book
("A", "T") and a reply whose only element has title "t" but author "B",
no reply element matches on both title and author, yet the code counts the
book as present (the missing set is empty), because only the lower-cased
title is compared. -/
theorem presence_check_counterexample :
    missing_books [⟨"A", "T"⟩] [⟨some "B", some "t", some "sci-fi"⟩] = [] ∧
    ¬ (∃ rb ∈ [(⟨some "B", some "t", some "sci-fi"⟩ : RespBook)],
        pyLower (rb.title.getD "") = pyLower "T" ∧ rb.author = some "A") := by
  constructor
  · decide
  · decide

/-- C7 (amended): the presence check identifies a book by its lower-cased
title alone: an input book counts as missing exactly when no reply element
has the same lower-cased title, regardless of authors. -/
theorem presence_check_by_title_only (books_sent : List SentBook)
    (bs : List RespBook) (sb : SentBook) (hmem : sb ∈ books_sent) :
    pyLower sb.title ∈ missing_books books_sent bs ↔
      ∀ rb ∈ bs, pyLower (rb.title.getD "") ≠ pyLower sb.title := by
  unfold missing_books
  rw [List.mem_filter]
  constructor
  · rintro ⟨-, h2⟩ rb hrb heq
    rw [decide_eq_true_iff] at h2
    exact h2 (by
      unfold received_titles
      exact List.mem_map.mpr ⟨rb, hrb, heq⟩)
  · intro h
    refine ⟨?_, ?_⟩
    · unfold sent_titles
      exact List.mem_dedup.mpr (List.mem_map.mpr ⟨sb, hmem, rfl⟩)
    · rw [decide_eq_true_iff]
      intro hcon
      unfold received_titles at hcon
      obtain ⟨rb, hrb, heq⟩ := List.mem_map.mp hcon
      exact h rb hrb heq

/-- Witness for the amended C7 at a concrete input: the book ("A", "T") is
missing from a reply whose only title is "other". -/
theorem presence_check_by_title_only_witness :
    ((⟨"A", "T"⟩ : SentBook) ∈ [(⟨"A", "T"⟩ : SentBook)]) ∧
    (pyLower "T" ∈
        missing_books [⟨"A", "T"⟩] [⟨some "B", some "other", some "sci-fi"⟩] ↔
      ∀ rb ∈ [(⟨some "B", some "other", some "sci-fi"⟩ : RespBook)],
        pyLower (rb.title.getD "") ≠ pyLower "T") :=
  ⟨by decide,
    presence_check_by_title_only [⟨"A", "T"⟩]
      [⟨some "B", some "other", some "sci-fi"⟩] ⟨"A", "T"⟩ (by decide)⟩

/-- C10: extra books in the oracle's reply are accepted silently: when every
reply element is well-formed with an allowed category and every input title
occurs in the reply, validation succeeds with no warning and no error, even
when some reply elements have titles that never occurred in the input, and
the whole reply (extras included) is returned and cached unchanged. -/
theorem extra_books_accepted_silently (year : String) (books_sent : List SentBook)
    (cache : Cache) (bs : List RespBook)
    (hwf : ∀ rb ∈ bs, rb.title ≠ none ∧
      ∃ c, rb.category = some c ∧ pyStrip (pyLower c) ∈ ALLOWED_CATEGORIES)
    (hcover : ∀ sb ∈ books_sent, ∃ rb ∈ bs,
      pyLower (rb.title.getD "") = pyLower sb.title)
    (_hextra : ∃ rb ∈ bs, ∀ sb ∈ books_sent,
      pyLower (rb.title.getD "") ≠ pyLower sb.title)
    (hmiss : cache_hit cache year books_sent = false) :
    validate_response books_sent (.withBooks bs) = (true, "", []) ∧
    categorize_year_books year books_sent cache (.reply (.withBooks bs)) =
      (.ok (.withBooks bs),
        cacheInsert cache year
          ⟨get_books_hash (books_sent.map bookToObj), .withBooks bs⟩, 1) := by
  have hcats : invalid_categories bs = [] := by
    refine invalid_categories_eq_nil bs (fun b hb => ?_)
    obtain ⟨-, c, hc, hcin⟩ := hwf b hb
    right
    simp only [hc, Option.getD_some]
    exact hcin
  have hfields : check_required_fields bs = none := by
    refine check_required_fields_eq_none bs (fun b hb => ?_)
    obtain ⟨ht, c, hc, -⟩ := hwf b hb
    exact ⟨ht, by simp [hc]⟩
  have hmissing : missing_books books_sent bs = [] := by
    refine missing_books_eq_nil books_sent bs (fun sb hsb => ?_)
    obtain ⟨rb, hrb, heq⟩ := hcover sb hsb
    unfold received_titles
    exact List.mem_map.mpr ⟨rb, hrb, heq⟩
  have hval : validate_response books_sent (.withBooks bs) = (true, "", []) := by
    rw [validate_response_valid books_sent bs hcats hfields, hmissing]
    simp
  have hvalid1 : (validate_response books_sent (.withBooks bs)).1 = true := by
    rw [hval]
  refine ⟨hval, ?_⟩
  rw [categorize_of_not_hit _ _ _ _ hmiss,
    oracle_step_of_valid _ _ _ _ _ hvalid1]

/-- Witness for C10: the reply contains the requested book plus an extra
book "Extra" never present in the input; validation succeeds with no
warnings and the full reply is cached. -/
theorem extra_books_accepted_silently_witness :
    (∀ rb ∈ [(⟨some "A", some "T1", some "sci-fi"⟩ : RespBook),
        ⟨some "X", some "Extra", some "fantasy"⟩],
      rb.title ≠ none ∧
      ∃ c, rb.category = some c ∧ pyStrip (pyLower c) ∈ ALLOWED_CATEGORIES) ∧
    (∀ sb ∈ [(⟨"A", "T1"⟩ : SentBook)],
      ∃ rb ∈ [(⟨some "A", some "T1", some "sci-fi"⟩ : RespBook),
        ⟨some "X", some "Extra", some "fantasy"⟩],
      pyLower (rb.title.getD "") = pyLower sb.title) ∧
    (∃ rb ∈ [(⟨some "A", some "T1", some "sci-fi"⟩ : RespBook),
        ⟨some "X", some "Extra", some "fantasy"⟩],
      ∀ sb ∈ [(⟨"A", "T1"⟩ : SentBook)],
        pyLower (rb.title.getD "") ≠ pyLower sb.title) ∧
    validate_response [⟨"A", "T1"⟩]
      (.withBooks [⟨some "A", some "T1", some "sci-fi"⟩,
        ⟨some "X", some "Extra", some "fantasy"⟩]) = (true, "", []) ∧
    categorize_year_books "2020" [⟨"A", "T1"⟩] []
      (.reply (.withBooks [⟨some "A", some "T1", some "sci-fi"⟩,
        ⟨some "X", some "Extra", some "fantasy"⟩])) =
      (.ok (.withBooks [⟨some "A", some "T1", some "sci-fi"⟩,
          ⟨some "X", some "Extra", some "fantasy"⟩]),
        cacheInsert [] "2020"
          ⟨get_books_hash ([⟨"A", "T1"⟩].map bookToObj),
            .withBooks [⟨some "A", some "T1", some "sci-fi"⟩,
              ⟨some "X", some "Extra", some "fantasy"⟩]⟩, 1) :=
  ⟨by decide, by decide, by decide,
    (extra_books_accepted_silently "2020" [⟨"A", "T1"⟩] []
      [⟨some "A", some "T1", some "sci-fi"⟩, ⟨some "X", some "Extra", some "fantasy"⟩]
      (by decide) (by decide) (by decide) (by decide)).1,
    (extra_books_accepted_silently "2020" [⟨"A", "T1"⟩] []
      [⟨some "A", some "T1", some "sci-fi"⟩, ⟨some "X", some "Extra", some "fantasy"⟩]
      (by decide) (by decide) (by decide) (by decide)).2⟩
